import Mathlib

/-!
Shallow embedding of the download-job scheduler of `dlp-gui`
(`src/Core/threads.py`, `src/Core/downloader.py`, `src/Core/blocker.py`)
together with theorems settling the frozen specification claims.

Python floats used for wall-clock times, speeds and progress percentages
are modelled as rationals (`Rat`); Python `int` as `Int`/`Nat`;
`dict.get` with a possibly missing key as `Option`; a Python dict keyed
by strings as an insertion-ordered association list.  Signals emitted via
Qt are modelled as an explicit list of emission events.
-/

namespace DlpGui

/-- `DownloadStatus` enumeration from `src/Core/threads.py`. -/
inductive DownloadStatus
  | pending
  | downloading
  | paused
  | completed
  | failed
  | cancelled
deriving DecidableEq, Repr

/-- `DownloadProgress` dataclass from `src/Core/threads.py`. -/
structure DownloadProgress where
  status : DownloadStatus
  progress : Rat := 0
  speed : Rat := 0
  eta : Option Int := none
  downloaded_bytes : Int := 0
  total_bytes : Option Int := none
  filename : String := ""
  error_message : String := ""
deriving DecidableEq, Repr

/-- The Qt signals a `DownloadThread` can emit, in emission order. -/
inductive Signal
  | progress_updated (p : DownloadProgress)
  | download_started (url : String)
  | download_completed (success : Bool) (message : String) (file_paths : List String)
  | download_cancelled
  | error_occurred (error_type : String) (error_message : String)
deriving DecidableEq, Repr

/-- Exact rational subtraction, written out through `Rat.divInt` so that it
is kernel-computable (used for float arithmetic of the source). -/
def qsub (a b : Rat) : Rat :=
  Rat.divInt (a.num * (b.den : Int) - b.num * (a.den : Int))
    ((a.den : Int) * (b.den : Int))

/-- Exact rational multiplication, kernel-computable. -/
def qmul (a b : Rat) : Rat :=
  Rat.divInt (a.num * b.num) ((a.den : Int) * (b.den : Int))

/-- Exact rational division, kernel-computable. -/
def qdiv (a b : Rat) : Rat :=
  Rat.divInt (a.num * (b.den : Int)) ((a.den : Int) * b.num)

/-- Exact rational strict comparison, kernel-computable. -/
def qlt (a b : Rat) : Bool :=
  a.num * (b.den : Int) < b.num * (a.den : Int)

/-- Exact rational minimum (Python `min`), kernel-computable. -/
def qmin (a b : Rat) : Rat :=
  if qlt b a then b else a

/-- Python `str.lower()` (per-character ASCII lowercasing), written through
`List.map` so that it is kernel-computable. -/
def pyLower (s : String) : String :=
  String.mk (s.data.map Char.toLower)

/-- Python `str.strip()`: remove leading and trailing whitespace. -/
def pyStrip (s : String) : String :=
  String.mk
    (((s.data.dropWhile Char.isWhitespace).reverse.dropWhile
      Char.isWhitespace).reverse)

/-- Python `s.startswith(pre)`, kernel-computable. -/
def strStartsWith (s pre : String) : Bool :=
  pre.data.isPrefixOf s.data

/-- Python `s.endswith(suf)`, kernel-computable. -/
def strEndsWith (s suf : String) : Bool :=
  suf.data.isSuffixOf s.data

/-- Python `s[n:]`, kernel-computable. -/
def strDrop (s : String) (n : Nat) : String :=
  String.mk (s.data.drop n)

/-- Whether `needle` occurs as a contiguous sublist of the second list. -/
def listIsInfixOf (needle : List Char) : List Char → Bool
  | [] => needle.isEmpty
  | c :: rest => needle.isPrefixOf (c :: rest) || listIsInfixOf needle rest

/-- Python `needle in hay` substring test. -/
def strContainsSubstr (hay needle : String) : Bool :=
  listIsInfixOf needle.data hay.data

/-- `os.path.basename` on POSIX paths: the part after the last slash. -/
def osPathBasename (p : String) : String :=
  String.mk ((p.data.reverse.takeWhile (fun c => c != '/')).reverse)

/-- Python truthiness of an optional integer: `None` and `0` are falsy. -/
def pyTruthyInt : Option Int → Bool
  | none => false
  | some v => v != 0

/-- Python `a or b` on two optional integers (used for
`data.get("total_bytes") or data.get("total_bytes_estimate")`). -/
def pyOrInt (a b : Option Int) : Option Int :=
  if pyTruthyInt a then a else b

/-- A Python runtime value crossing the
`success, file_paths = self.downloader.download(...)` boundary in
`DownloadThread.run`: either a bare `bool` (what `Downloader.download`
actually returns) or a 2-tuple (what the unpacking site expects). -/
inductive PyDownloadResult
  | bool (b : Bool)
  | tuple (success : Bool) (paths : List String)
deriving DecidableEq, Repr

/-- Python tuple unpacking `a, b = x` of a `PyDownloadResult`: succeeds on a
2-tuple and raises `TypeError` on a bare bool. -/
def unpackPair : PyDownloadResult → Except String (Bool × List String)
  | .tuple s p => .ok (s, p)
  | .bool _ => .error "cannot unpack non-iterable bool object"

/-- The `TypeError` raised by `with QMutex(self._mutex)` under PyQt6: the
`QMutex` constructor takes no argument and `QMutex` does not implement the
context-manager protocol, so the statement raises before its body can run.
(`QMutexLocker`, which `add_download` and `_process_download_queue` use, is
the context manager the source uses correctly elsewhere.) -/
def qmutex_typeerror : String := "QMutex(): too many arguments"

namespace Downloader

/-- `Downloader.download` from `src/Core/downloader.py`.  Returns `False` on
an empty URL; otherwise runs yt-dlp inside a `try` whose handlers both return
`False`, so the outcome of the external transfer (raise vs. return) is the
boolean parameter `transfer_ok`.  The essential fact for the claims is the
return TYPE: always a bare Python `bool`, never a tuple. -/
def download (url : String) (transfer_ok : Bool) : PyDownloadResult :=
  .bool (if url = "" then false else transfer_ok)

end Downloader

namespace DownloadThread

/-- The external circumstances of one `DownloadThread.run` execution. -/
structure RunEnv where
  /-- `Path(self.output_path).exists()` in `_validate_inputs`. -/
  dir_exists : Bool
  /-- `os.access(output_dir, os.W_OK)` in `_validate_inputs`. -/
  dir_writable : Bool
  /-- `output_dir.mkdir(...)` in `_setup_output_directory`: `none` when it
  succeeds, `some e` when it raises `OSError(e)`. -/
  mkdir_error : Option String
  /-- Whether the external yt-dlp transfer inside `Downloader.download`
  completes without raising. -/
  transfer_ok : Bool
  /-- Value of `self._is_cancelled` at the check following the call to
  `self.downloader.download`. -/
  is_cancelled : Bool
deriving DecidableEq, Repr

/-- Result of one `DownloadThread.run` execution: the final progress record,
every value assigned to `self._current_progress.status` in order, the signals
emitted in order, and whether `Downloader.download` was invoked. -/
structure RunResult where
  final : DownloadProgress
  status_trace : List DownloadStatus
  emissions : List Signal
  download_called : Bool
deriving DecidableEq, Repr

/-- `DownloadThread._get_completion_message`. -/
def get_completion_message (file_paths : List String) : String :=
  if file_paths.length = 1 then
    "Successfully downloaded: " ++ osPathBasename (file_paths.headD "")
  else
    "Successfully downloaded " ++ toString file_paths.length ++ " files"

/-- `DownloadThread._validate_inputs`: the first exception raised, if any,
as an error kind (`"validation"` or `"storage"`) and message. -/
def validate_inputs (url output_path : String) (env : RunEnv) :
    Option (String × String) :=
  if url = "" then some ("validation", "Invalid URL provided")
  else if output_path = "" then some ("validation", "Output path not specified")
  else if env.dir_exists && !env.dir_writable then
    some ("storage", "Output directory is not writable: " ++ output_path)
  else none

/-- `DownloadThread._setup_output_directory`: `OSError` is re-raised as a
storage error. -/
def setup_output_directory (env : RunEnv) :
    Option (String × String) :=
  match env.mkdir_error with
  | some e => some ("storage", "Failed to create output directory: " ++ e)
  | none => none

/-- `DownloadThread._handle_error` applied to a current progress record:
final progress and the signals it emits. -/
def handle_error (p : DownloadProgress) (error_type error_message : String) :
    DownloadProgress × List Signal :=
  let p' := { p with status := .failed, error_message := error_message }
  (p', [ .progress_updated p'
       , .error_occurred error_type error_message
       , .download_completed false error_message [] ])

/-- `DownloadThread.run` from `src/Core/threads.py`, for a thread freshly
constructed with the given `url` and `output_path` (so
`self._current_progress = DownloadProgress(PENDING)` initially). -/
def run (url output_path : String) (env : RunEnv) : RunResult :=
  -- `self._current_progress.status = DownloadStatus.DOWNLOADING`
  let p0 : DownloadProgress := { status := .downloading }
  let trace0 : List DownloadStatus := [.downloading]
  let em0 : List Signal := [.download_started url]
  match validate_inputs url output_path env with
  | some (ty, msg) =>
      let (pf, ems) := handle_error p0 ty msg
      ⟨pf, trace0 ++ [.failed], em0 ++ ems, false⟩
  | none =>
    match setup_output_directory env with
    | some (ty, msg) =>
        let (pf, ems) := handle_error p0 ty msg
        ⟨pf, trace0 ++ [.failed], em0 ++ ems, false⟩
    | none =>
      let result := Downloader.download url env.transfer_ok
      match unpackPair result with
      | .error e =>
          -- `except Exception as e: self._handle_error("unknown", ...)`
          let (pf, ems) := handle_error p0 "unknown" ("Unexpected error: " ++ e)
          ⟨pf, trace0 ++ [.failed], em0 ++ ems, true⟩
      | .ok (success, file_paths) =>
          if env.is_cancelled then
            let pf := { p0 with status := .cancelled }
            ⟨pf, trace0 ++ [.cancelled], em0 ++ [.download_cancelled], true⟩
          else if success && !file_paths.isEmpty then
            let pf := { p0 with status := .completed, progress := 100 }
            ⟨pf, trace0 ++ [.completed],
              em0 ++ [ .progress_updated pf
                     , .download_completed true (get_completion_message file_paths)
                         file_paths ], true⟩
          else
            let pf := { p0 with
                        status := .failed
                        error_message := "Download failed - no files were downloaded" }
            ⟨pf, trace0 ++ [.failed],
              em0 ++ [ .progress_updated pf
                     , .download_completed false "Download failed" [] ], true⟩

/-- One raw yt-dlp progress hook event (the `progress_data` dict), with
`none` for absent keys. -/
structure HookEvent where
  status : Option String := none
  error : Option String := none
  filename : Option String := none
  downloaded_bytes : Int := 0
  total_bytes : Option Int := none
  total_bytes_estimate : Option Int := none
  speed : Option Rat := none
  eta : Option Int := none
deriving DecidableEq, Repr

/-- The mutable thread fields read and written by
`DownloadThread._progress_callback`. -/
structure CbState where
  is_paused : Bool
  is_cancelled : Bool
  last_update_time : Rat
  update_interval : Rat
  current_progress : DownloadProgress
  downloaded_files : List String
deriving DecidableEq, Repr

/-- The state of a freshly constructed `DownloadThread` whose `run` has
already set the status to downloading: `_last_update_time = 0`,
`_update_interval = 0.5`. -/
def CbState.fresh : CbState :=
  { is_paused := false
    is_cancelled := false
    last_update_time := 0
    update_interval := mkRat 1 2
    current_progress := { status := .downloading }
    downloaded_files := [] }

/-- `DownloadThread._handle_downloading_progress`. -/
def handle_downloading_progress (s : CbState) (ev : HookEvent) :
    CbState × List Signal :=
  let total_bytes := pyOrInt ev.total_bytes ev.total_bytes_estimate
  let downloaded_bytes := ev.downloaded_bytes
  let speed : Rat := (ev.speed).getD 0
  let progress_percent : Rat :=
    if pyTruthyInt total_bytes && decide (0 < total_bytes.getD 0) then
      qmin 100 (qmul (qdiv (downloaded_bytes : Rat) ((total_bytes.getD 0 : Int) : Rat)) 100)
    else 0
  let p : DownloadProgress :=
    { status := .downloading
      progress := progress_percent
      speed := speed
      eta := ev.eta
      downloaded_bytes := downloaded_bytes
      total_bytes := total_bytes
      filename := match ev.filename with
        | some f => if f = "" then "" else osPathBasename f
        | none => "" }
  ({ s with current_progress := p }, [.progress_updated p])

/-- `DownloadThread._handle_finished_progress`. -/
def handle_finished_progress (s : CbState) (ev : HookEvent) :
    CbState × List Signal :=
  let filename := (ev.filename).getD ""
  let files :=
    if filename ≠ "" && !(s.downloaded_files.contains filename) then
      s.downloaded_files ++ [filename]
    else s.downloaded_files
  let p := { s.current_progress with
             filename := if filename = "" then "" else osPathBasename filename
             progress := (100 : Rat) }
  ({ s with downloaded_files := files, current_progress := p },
   [.progress_updated p])

/-- `DownloadThread._progress_callback` called at wall-clock time `now` with
event `ev`.  `cancelled_after_wait` is the value `self._is_cancelled` would
show after the pause wait-condition wakes; it is irrelevant at runtime
because the paused branch's `with QMutex(self._mutex)` raises `TypeError`
inside the `try` before the wait is reached, landing in the generic handler.
Returns the updated thread fields and the signals emitted. -/
def progress_callback (s : CbState) (now : Rat) (ev : HookEvent)
    (_cancelled_after_wait : Bool) : CbState × List Signal :=
  -- throttle, applied before anything else
  if qlt (qsub now s.last_update_time) s.update_interval then (s, [])
  else if s.is_cancelled then (s, [])
  else if s.is_paused then
    -- `with QMutex(self._mutex)` raises TypeError; `except Exception` reports
    -- it through `_handle_error("progress", ...)`; the wait never happens
    let msg := "Progress callback error: " ++ qmutex_typeerror
    let (p', ems) := handle_error s.current_progress "progress" msg
    ({ s with current_progress := p' }, ems)
  else
    match ev.status with
    | some "downloading" =>
        let (s', ems) := handle_downloading_progress s ev
        ({ s' with last_update_time := now }, ems)
    | some "finished" =>
        let (s', ems) := handle_finished_progress s ev
        ({ s' with last_update_time := now }, ems)
    | some "error" =>
        -- `raise DownloadNetworkError(error_msg)`, immediately caught by this
        -- callback's own `except Exception` handler
        let error_msg := (ev.error).getD "Unknown download error"
        let msg := "Progress callback error: " ++ error_msg
        let (p', ems) := handle_error s.current_progress "progress" msg
        ({ s with current_progress := p' }, ems)
    | _ => ({ s with last_update_time := now }, [])

/-- The latest progress snapshot of a thread (what `get_download_info`
reports as `progress`; the spec's `snapshot()`). -/
def latest_progress (s : CbState) : DownloadProgress :=
  s.current_progress

end DownloadThread

/-- The per-thread data the manager manipulates: its id (from
`DownloadThread.__init__`: `f"dl_..."` of the submission second), whether
`start()` has been called on it, and its cancellation flag. -/
structure DThread where
  download_id : String
  started : Bool
  is_cancelled : Bool
deriving DecidableEq, Repr

/-- `self.download_id = f"dl_{int(time.time())}"` in
`DownloadThread.__init__`, where `t` is the integer wall-clock second. -/
def mkDownloadId (t : Nat) : String :=
  "dl_" ++ toString t

namespace DownloadManager

/-- A Python `dict` keyed by strings, as an insertion-ordered association
list (no duplicate keys by construction of the operations). -/
def dictContains (m : List (String × DThread)) (k : String) : Bool :=
  m.any (fun p => p.1 = k)

/-- `m[k] = v` on a Python dict: replace in place if the key is present,
otherwise append at the end. -/
def dictInsert (m : List (String × DThread)) (k : String) (v : DThread) :
    List (String × DThread) :=
  if dictContains m k then
    m.map (fun p => if p.1 = k then (k, v) else p)
  else m ++ [(k, v)]

/-- The `DownloadManager` fields the claims are about. -/
structure ManagerState where
  max_concurrent_downloads : Int
  active_downloads : List (String × DThread)
  download_queue : List DThread
  completed_downloads : List String
  is_running : Bool
deriving DecidableEq, Repr

/-- `DownloadManager.__init__(max_concurrent_downloads)`. -/
def init (k : Int) : ManagerState :=
  { max_concurrent_downloads := k
    active_downloads := []
    download_queue := []
    completed_downloads := []
    is_running := false }

/-- `DownloadManager.add_download` at integer wall-clock second `t`: builds a
`DownloadThread` (its id derived from `t`), appends it to the queue, restarts
the manager loop when idle, and returns the new id. -/
def add_download (s : ManagerState) (t : Nat) : ManagerState × String :=
  let th : DThread := ⟨mkDownloadId t, false, false⟩
  ({ s with download_queue := s.download_queue ++ [th], is_running := true },
   th.download_id)

/-- `DownloadManager.remove_download` as the source actually behaves: the
method opens with `with QMutex(self._mutex)`, which raises `TypeError` on
every call, before any check or mutation — it never returns a bool and never
touches the state; the exception propagates to the caller. -/
def remove_download (_s : ManagerState) (_id : String) :
    Except String (Bool × ManagerState) :=
  .error qmutex_typeerror

/-- The suite of `remove_download`'s `with` block — dead code, kept to state
what the method was written to do: forward `cancel()` when active (which
itself raises, as `DownloadThread.cancel` opens with the same broken
`with QMutex(self._mutex)`), pop the first queue entry with the id when
queued, and report whether a download was found. -/
def remove_download_body (s : ManagerState) (id : String) :
    Except String (Bool × ManagerState) :=
  if dictContains s.active_downloads id then
    -- `download_thread.cancel()` raises `TypeError` at its own `with` line
    .error qmutex_typeerror
  else if s.download_queue.any (fun j => j.download_id = id) then
    .ok (true,
     { s with download_queue :=
         s.download_queue.eraseP (fun j => j.download_id = id) })
  else .ok (false, s)

/-- `DownloadManager.set_max_concurrent_downloads`. -/
def set_max_concurrent_downloads (s : ManagerState) (n : Int) : ManagerState :=
  if 0 < n then { s with max_concurrent_downloads := n } else s

/-- `DownloadManager.is_active`. -/
def is_active (s : ManagerState) : Bool :=
  s.is_running

/-- `DownloadManager.cancel_all`: iterates the active downloads calling
`DownloadThread.cancel()`, whose `with QMutex(self._mutex)` raises
`TypeError` on the first iteration (before any flag is set), so with a
non-empty active table the method raises with the state untouched; with no
active downloads it clears the queue and returns the count. -/
def cancel_all (s : ManagerState) : Except String (ManagerState × Nat) :=
  if s.active_downloads.isEmpty then
    .ok ({ s with download_queue := [] },
      s.active_downloads.length + s.download_queue.length)
  else .error qmutex_typeerror

/-- `DownloadManager.clear_completed`: opens with the same broken
`with QMutex(self._mutex)` and raises `TypeError` before clearing anything. -/
def clear_completed (_s : ManagerState) : Except String ManagerState :=
  .error qmutex_typeerror

/-- The start loop of `_process_download_queue`:
`for _ in range(n): if self._download_queue: pop(0); insert; start()`. -/
def startLoop : Nat → List DThread → List (String × DThread) →
    List DThread × List (String × DThread)
  | 0, q, a => (q, a)
  | n + 1, q, a =>
    match q with
    | [] => ([], a)
    | j :: rest =>
        let j' := { j with started := true }
        startLoop n rest (dictInsert a j.download_id j')

/-- The active table after the clean-up phase of
`_process_download_queue`: entries whose threads still run.  `stopped` is
the set of ids whose threads report `isRunning() == False`. -/
def cleaned_active (s : ManagerState) (stopped : List String) :
    List (String × DThread) :=
  s.active_downloads.filter (fun p => !stopped.contains p.1)

/-- The number of loop iterations of the start phase of
`_process_download_queue`: `min(available_slots, len(queue))`, clamped at
zero as `range` of a negative int is empty. -/
def dispatch_count (s : ManagerState) (stopped : List String) : Nat :=
  (min (s.max_concurrent_downloads - ((cleaned_active s stopped).length : Int))
    (s.download_queue.length : Int)).toNat

/-- `DownloadManager._process_download_queue`, one pass.  `stopped` is the
set of ids whose threads report `isRunning() == False` (they reached a
terminal state). -/
def process_download_queue (s : ManagerState) (stopped : List String) :
    ManagerState :=
  -- clean up completed downloads
  let completed_ids :=
    (s.active_downloads.filter (fun p => stopped.contains p.1)).map (fun p => p.1)
  let active1 := cleaned_active s stopped
  let completed1 := s.completed_downloads ++ completed_ids
  -- start new downloads if slots available
  let n : Nat := dispatch_count s stopped
  let qa := startLoop n s.download_queue active1
  -- stop manager if no active downloads or queue
  let running2 := if qa.2.isEmpty && qa.1.isEmpty then false else s.is_running
  { s with
      active_downloads := qa.2
      download_queue := qa.1
      completed_downloads := completed1
      is_running := running2 }

/-- One manager-level operation, for reachability statements. -/
inductive MOp
  | add (t : Nat)
  | remove (id : String)
  | dispatch (stopped : List String)
  | setMax (n : Int)
  | cancelAll
  | clearCompleted
deriving DecidableEq, Repr

/-- Effect of one operation on the manager state.  An operation that raises
leaves the state unchanged (the exception propagates to the caller). -/
def step (s : ManagerState) : MOp → ManagerState
  | .add t => (add_download s t).1
  | .remove id =>
      match remove_download s id with
      | .ok (_, s') => s'
      | .error _ => s
  | .dispatch stopped => process_download_queue s stopped
  | .setMax n => set_max_concurrent_downloads s n
  | .cancelAll =>
      match cancel_all s with
      | .ok (s', _) => s'
      | .error _ => s
  | .clearCompleted =>
      match clear_completed s with
      | .ok s' => s'
      | .error _ => s

/-- The state reached from `init k` by a sequence of operations. -/
def reach (k : Int) (ops : List MOp) : ManagerState :=
  ops.foldl step (init k)

/-- All job ids tracked by a manager state: queued, active, completed. -/
def allIds (s : ManagerState) : List String :=
  s.download_queue.map (fun j => j.download_id) ++
    s.active_downloads.map (fun p => p.1) ++ s.completed_downloads

/-- The submission timestamps of the `add` operations of a trace. -/
def addTimes : List MOp → List Nat
  | [] => []
  | .add t :: ops => t :: addTimes ops
  | _ :: ops => addTimes ops

/-- Whether a trace never changes the concurrency bound. -/
def noSetMax : List MOp → Bool
  | [] => true
  | .setMax _ :: _ => false
  | _ :: ops => noSetMax ops

end DownloadManager

/-- `BlockReason` enumeration from `src/Core/blocker.py`. -/
inductive BlockReason
  | domain_blocked
  | keyword_blocked
  | pattern_blocked
  | whitelist_override
  | age_restricted
  | content_type
  | custom_rule
deriving DecidableEq, Repr

/-- `BlockResult` dataclass from `src/Core/blocker.py`. -/
structure BlockResult where
  is_blocked : Bool
  reason : BlockReason
  matched_rule : Option String := none
  details : String := ""
deriving DecidableEq, Repr

namespace ContentBlocker

/-- A keyword rule: its value plus the `enabled` and `case_sensitive`
flags of the `BlockRule` dataclass. -/
structure KeywordRule where
  value : String
  enabled : Bool
  case_sensitive : Bool
deriving DecidableEq, Repr

/-- The rule tables of a `ContentBlocker` instance.  Domain and pattern
rules are pairs of the rule value and its `enabled` flag. -/
structure Rules where
  domain_rules : List (String × Bool)
  keyword_rules : List KeywordRule
  pattern_rules : List (String × Bool)
  whitelist : List String

/-- The result of `urlparse` as consumed by the blocker: the `netloc` and
the keys of `parse_qs(parsed.query)`. -/
structure ParsedUrl where
  netloc : String
  query_keys : List String
deriving DecidableEq, Repr

/-- The external Python library calls made during a blocking check, each of
which may raise: `urlparse(url)` and the two `re.search` sites (the
word-boundary keyword search and the compiled pattern search). -/
structure BlockEnv where
  parsed : Except String ParsedUrl
  keyword_search : String → String → Except String Bool
  pattern_search : String → String → Except String Bool

/-- `ContentBlocker._is_whitelisted`. -/
def is_whitelisted (whitelist : List String) (domain : String) : Bool :=
  whitelist.contains domain ||
    whitelist.any (fun w => strEndsWith domain ("." ++ w))

/-- `ContentBlocker._check_domain_rules`: first enabled rule whose domain
matches exactly or as a suffix subdomain. -/
def check_domain_rules (rules : List (String × Bool)) (domain : String) :
    BlockResult :=
  match rules.find? (fun r =>
      r.2 && (domain = r.1 || strEndsWith domain ("." ++ r.1))) with
  | some r =>
      ⟨true, .domain_blocked, some r.1, "Domain blocked: " ++ r.1⟩
  | none => ⟨false, .domain_blocked, none, ""⟩

/-- `ContentBlocker._check_keyword_rules`: word-boundary regex search for
each enabled keyword; the regex engine may raise. -/
def check_keyword_rules (search : String → String → Except String Bool)
    (url : String) : List KeywordRule → Except String BlockResult
  | [] => .ok ⟨false, .keyword_blocked, none, ""⟩
  | r :: rs =>
    if !r.enabled then check_keyword_rules search url rs
    else do
      let search_text := if r.case_sensitive then url else pyLower url
      let search_keyword := if r.case_sensitive then r.value else pyLower r.value
      let matched ← search search_keyword search_text
      if matched then
        .ok ⟨true, .keyword_blocked, some r.value, "Keyword blocked: " ++ r.value⟩
      else check_keyword_rules search url rs

/-- `ContentBlocker._check_pattern_rules`: compiled regex search for each
enabled pattern; the regex engine may raise. -/
def check_pattern_rules (search : String → String → Except String Bool)
    (url : String) : List (String × Bool) → Except String BlockResult
  | [] => .ok ⟨false, .pattern_blocked, none, ""⟩
  | r :: rs =>
    if !r.2 then check_pattern_rules search url rs
    else do
      let matched ← search r.1 url
      if matched then
        .ok ⟨true, .pattern_blocked, some r.1, "Pattern blocked: " ++ r.1⟩
      else check_pattern_rules search url rs

/-- The age-restriction indicator strings of `_check_custom_rules`. -/
def age_indicators : List String :=
  ["18+", "mature", "restricted", "age_gate"]

/-- `ContentBlocker._check_custom_rules`. -/
def check_custom_rules (url : String) (parsed : ParsedUrl) : BlockResult :=
  if parsed.query_keys.contains "adult" then
    ⟨true, .custom_rule, some "adult_query_param",
      "URL contains adult query parameter"⟩
  else
    match age_indicators.find? (fun i => strContainsSubstr (pyLower url) i) with
    | some i => ⟨true, .age_restricted, some i, "Age restriction indicator: " ++ i⟩
    | none => ⟨false, .custom_rule, none, ""⟩

/-- The body of the `try` block of `ContentBlocker._perform_blocking_check`:
whitelist, then domain, keyword, pattern and custom checks, propagating any
exception raised along the way. -/
def blocking_check_body (rules : Rules) (env : BlockEnv) (url : String) :
    Except String BlockResult := do
  let parsed ← env.parsed
  let domain0 := parsed.netloc
  let domain := if strStartsWith domain0 "www." then strDrop domain0 4 else domain0
  if is_whitelisted rules.whitelist domain then
    return ⟨false, .whitelist_override, none, "URL is whitelisted"⟩
  let domain_result := check_domain_rules rules.domain_rules domain
  if domain_result.is_blocked then
    return domain_result
  let keyword_result ← check_keyword_rules env.keyword_search url rules.keyword_rules
  if keyword_result.is_blocked then
    return keyword_result
  let pattern_result ← check_pattern_rules env.pattern_search url rules.pattern_rules
  if pattern_result.is_blocked then
    return pattern_result
  let custom_result := check_custom_rules url parsed
  if custom_result.is_blocked then
    return custom_result
  return ⟨false, .domain_blocked, none, "URL allowed"⟩

/-- `ContentBlocker._perform_blocking_check`: the body wrapped in
`try/except Exception`, the handler returning a fail-safe blocked result. -/
def perform_blocking_check (rules : Rules) (env : BlockEnv) (url : String) :
    BlockResult :=
  match blocking_check_body rules env url with
  | .ok r => r
  | .error e => ⟨true, .custom_rule, none, "Blocked due to error: " ++ e⟩

/-- `ContentBlocker.is_blocked`: normalises the URL, returns early on an
empty URL, serves valid cache entries, and otherwise performs the blocking
check.  `cache` holds the currently valid (non-expired) cache entries. -/
def is_blocked (rules : Rules) (env : BlockEnv)
    (cache : List (String × BlockResult)) (url0 : String) : BlockResult :=
  let url := pyLower (pyStrip url0)
  if url = "" then ⟨false, .domain_blocked, none, "Empty URL"⟩
  else
    match cache.lookup url with
    | some r => r
    | none => perform_blocking_check rules env url

end ContentBlocker

section Claims

open DownloadThread DownloadManager

/-- C1: `Downloader.download` returns a bare bool (never a tuple carrying
output paths), so the unpacking `success, file_paths = ...` in
`DownloadThread.run` raises `TypeError` and even a job whose external
transfer fully succeeds ends `Failed` with the generic "unknown" error
instead of `Completed`: the Completed branch of `run` is unreachable. -/
theorem C1_successful_transfer_still_ends_failed :
    Downloader.download "https://example.com/v" true = .bool true ∧
    (run "https://example.com/v" "/downloads"
        ⟨true, true, none, true, false⟩).download_called = true ∧
    (run "https://example.com/v" "/downloads"
        ⟨true, true, none, true, false⟩).final.status = .failed ∧
    (run "https://example.com/v" "/downloads"
        ⟨true, true, none, true, false⟩).final.error_message =
      "Unexpected error: cannot unpack non-iterable bool object" ∧
    Signal.error_occurred "unknown"
        "Unexpected error: cannot unpack non-iterable bool object" ∈
      (run "https://example.com/v" "/downloads"
        ⟨true, true, none, true, false⟩).emissions ∧
    DownloadStatus.completed ∉
      (run "https://example.com/v" "/downloads"
        ⟨true, true, none, true, false⟩).status_trace := by
  decide

/-- C5: the job id is `"dl_"` plus the integer wall-clock second, so two
`add_download` calls within the same second return the SAME id: ids are not
unique per submission. -/
theorem C5_same_second_ids_collide :
    (add_download (init 3) 1000).2 = "dl_1000" ∧
    (add_download (add_download (init 3) 1000).1 1000).2 = "dl_1000" ∧
    (add_download (init 3) 1000).2 =
      (add_download (add_download (init 3) 1000).1 1000).2 := by
  decide

/-- C2 counterexample: a `finished` callback arriving 0.2 s after the last
forwarded update (inside the 0.5 s minimum interval) is dropped by the
throttle — no sample is forwarded to observers and the state is unchanged —
refuting the claim that terminal samples bypass the throttle. -/
theorem C2_counterexample_finished_event_throttled :
    qlt (qsub (mkRat 51 5)
        ({ CbState.fresh with last_update_time := 10 } : CbState).last_update_time)
      ({ CbState.fresh with last_update_time := 10 } : CbState).update_interval
        = true ∧
    progress_callback { CbState.fresh with last_update_time := 10 } (mkRat 51 5)
        { status := some "finished", filename := some "/d/a.mp4" } false =
      ({ CbState.fresh with last_update_time := 10 }, []) := by
  decide

/-- C6 counterexample: starting a job with an empty URL does fail validation
and end `Failed`, but `run` assigns the Running (`downloading`) status and
emits `download_started` BEFORE validating, so the job is observably in the
Running state on the way to Failed. -/
theorem C6_counterexample_running_state_entered :
    (run "" "/downloads" ⟨true, true, none, true, false⟩).final.status =
      .failed ∧
    Signal.error_occurred "validation" "Invalid URL provided" ∈
      (run "" "/downloads" ⟨true, true, none, true, false⟩).emissions ∧
    DownloadStatus.downloading ∈
      (run "" "/downloads" ⟨true, true, none, true, false⟩).status_trace := by
  decide

/-- C7 counterexample: on an executor `error` event with message "timeout",
the raised `DownloadNetworkError` is caught by the callback's own generic
handler, so the error kind reported is `"progress"` — not the network kind —
and the snapshot's message is `"Progress callback error: timeout"`, not the
exact message "timeout". -/
theorem C7_counterexample_error_kind_and_message :
    (progress_callback CbState.fresh 100
        { status := some "error", error := some "timeout" } false).2 =
      [ Signal.progress_updated
          { status := .failed, error_message := "Progress callback error: timeout" }
      , Signal.error_occurred "progress" "Progress callback error: timeout"
      , Signal.download_completed false "Progress callback error: timeout" [] ] ∧
    latest_progress (progress_callback CbState.fresh 100
        { status := some "error", error := some "timeout" } false).1 =
      { status := .failed, error_message := "Progress callback error: timeout" } ∧
    ¬ (latest_progress (progress_callback CbState.fresh 100
        { status := some "error", error := some "timeout" } false).1).error_message
        = "timeout" ∧
    Signal.error_occurred "network" "timeout" ∉
      (progress_callback CbState.fresh 100
        { status := some "error", error := some "timeout" } false).2 := by
  decide

/-- C3 counterexample: from `init 2`, submit two jobs, dispatch both, then
`set_max_concurrent_downloads 1`: the state is reachable and has two running
jobs but `maxConcurrent = 1`, refuting `|running| ≤ maxConcurrent` in every
reachable state. -/
theorem C3_counterexample_lowering_bound :
    (reach 2 [.add 1, .add 2, .dispatch [], .setMax 1]).max_concurrent_downloads
        = 1 ∧
    (reach 2 [.add 1, .add 2, .dispatch [], .setMax 1]).active_downloads.length
        = 2 := by
  decide

/-- Unfolding the start loop of the dispatch pass: it pops exactly the first
`n` queue entries (or all of them), starts them, and leaves the rest of the
queue untouched and in order. -/
lemma startLoop_eq : ∀ (n : Nat) (q : List DThread) (a : List (String × DThread)),
    startLoop n q a =
      (q.drop n,
       (q.take n).foldl
         (fun m j => dictInsert m j.download_id { j with started := true }) a) := by
  intro n
  induction n with
  | zero => intro q a; simp [startLoop]
  | succ m ih =>
    intro q a
    cases q with
    | nil => simp [startLoop]
    | cons j rest => simp [startLoop, ih]

/-- C2 amended: the minimum-interval throttle of `_progress_callback` is
applied to every callback alike — any event (including `finished` and
`error`) arriving within `update_interval` of the last processed update is
dropped with no sample forwarded; past the interval, a not-cancelled,
not-paused callback with a downloading, finished or error status always
forwards at least one sample. -/
theorem C2_throttle_applies_to_all_statuses :
    (∀ (s : CbState) (now : Rat) (ev : HookEvent) (c : Bool),
      qlt (qsub now s.last_update_time) s.update_interval = true →
      progress_callback s now ev c = (s, [])) ∧
    (∀ (s : CbState) (now : Rat) (ev : HookEvent) (c : Bool),
      qlt (qsub now s.last_update_time) s.update_interval = false →
      s.is_cancelled = false → s.is_paused = false →
      (ev.status = some "downloading" ∨ ev.status = some "finished" ∨
        ev.status = some "error") →
      (progress_callback s now ev c).2 ≠ []) := by
  constructor
  · intro s now ev c h
    simp [progress_callback, h]
  · intro s now ev c h hc hp hst
    rcases hst with h1 | h1 | h1 <;>
      simp [progress_callback, h, hc, hp, h1, handle_downloading_progress,
        handle_finished_progress, handle_error]

/-- C2 witness: a `finished` event 0.25 s after the last update is dropped;
an `error` event on a fresh thread state is forwarded. -/
theorem C2_witness :
    progress_callback { CbState.fresh with last_update_time := 20 } (mkRat 81 4)
        { status := some "finished" } true =
      ({ CbState.fresh with last_update_time := 20 }, []) ∧
    (progress_callback CbState.fresh 7
        { status := some "error", error := some "boom" } false).2 ≠ [] := by
  exact ⟨C2_throttle_applies_to_all_statuses.1 _ _ _ _ (by decide),
    C2_throttle_applies_to_all_statuses.2 _ _ _ _ (by decide) (by decide) (by decide)
      (Or.inr (Or.inr rfl))⟩

/-- C7 amended: an executor `error` event carrying message "timeout" (when
not throttled, cancelled or paused) ends the job's progress in Failed, but
the error kind reported is `"progress"` and the snapshot message is
`"Progress callback error: timeout"` — the raised `DownloadNetworkError` is
caught by the callback's own generic handler before the network-error
handler of `run` can see it. -/
theorem C7_error_event_yields_progress_kind :
    ∀ (s : CbState) (now : Rat) (ev : HookEvent),
      qlt (qsub now s.last_update_time) s.update_interval = false →
      s.is_cancelled = false → s.is_paused = false →
      ev.status = some "error" → ev.error = some "timeout" →
      (latest_progress (progress_callback s now ev false).1).status = .failed ∧
      (latest_progress (progress_callback s now ev false).1).error_message =
        "Progress callback error: timeout" ∧
      (progress_callback s now ev false).2 =
        [ .progress_updated { s.current_progress with
            status := .failed
            error_message := "Progress callback error: timeout" }
        , .error_occurred "progress" "Progress callback error: timeout"
        , .download_completed false "Progress callback error: timeout" [] ] := by
  intro s now ev h hc hp hst herr
  simp [progress_callback, h, hc, hp, hst, herr, handle_error, latest_progress]

/-- C7 witness: the amended statement evaluated on a fresh thread state at
time 100. -/
theorem C7_witness :
    (latest_progress (progress_callback CbState.fresh 100
        { status := some "error", error := some "timeout" } false).1).error_message =
      "Progress callback error: timeout" := by
  exact (C7_error_event_yields_progress_kind CbState.fresh 100
    { status := some "error", error := some "timeout" }
    (by decide) (by decide) (by decide) rfl rfl).2.1

/-- C6 amended: an invalid JobSpec fails before the downloader is ever
invoked and the job ends Failed — an empty URL with kind `"validation"`, an
unwritable existing destination with kind `"storage"` — but in both cases
the status is first set to Running (`downloading`) and only then to Failed,
so the job does pass through the Running state. -/
theorem C6_invalid_spec_fails_before_download :
    (∀ (output_path : String) (env : RunEnv),
      (run "" output_path env).final =
        { status := .failed, error_message := "Invalid URL provided" } ∧
      (run "" output_path env).status_trace = [.downloading, .failed] ∧
      (run "" output_path env).download_called = false ∧
      (run "" output_path env).emissions =
        [ .download_started ""
        , .progress_updated { status := .failed, error_message := "Invalid URL provided" }
        , .error_occurred "validation" "Invalid URL provided"
        , .download_completed false "Invalid URL provided" [] ]) ∧
    (∀ (url output_path : String) (env : RunEnv),
      url ≠ "" → output_path ≠ "" →
      env.dir_exists = true → env.dir_writable = false →
      (run url output_path env).final =
        { status := .failed,
          error_message := "Output directory is not writable: " ++ output_path } ∧
      (run url output_path env).status_trace = [.downloading, .failed] ∧
      (run url output_path env).download_called = false) := by
  constructor
  · intro output_path env
    simp [run, validate_inputs, handle_error]
  · intro url output_path env h1 h2 h3 h4
    simp [run, validate_inputs, handle_error, h1, h2, h3, h4]

/-- C6 witness: both branches of the amended statement at concrete inputs. -/
theorem C6_witness :
    (run "" "/downloads" ⟨true, true, none, true, false⟩).download_called = false ∧
    (run "https://x" "/d" ⟨true, false, none, true, false⟩).final =
      { status := .failed,
        error_message := "Output directory is not writable: /d" } := by
  exact ⟨(C6_invalid_spec_fails_before_download.1 "/downloads"
      ⟨true, true, none, true, false⟩).2.2.1,
    (C6_invalid_spec_fails_before_download.2 "https://x" "/d"
      ⟨true, false, none, true, false⟩ (by decide) (by decide) rfl rfl).1⟩

/-- C4: the dispatch pass removes jobs only from the head of the FIFO queue:
it starts exactly the first `dispatch_count` queued jobs, in submission
order, and the remaining queue is the untouched suffix — clean-up of
finished jobs never reorders it. -/
theorem C4_dispatch_pops_only_queue_head :
    ∀ (s : ManagerState) (stopped : List String),
      (process_download_queue s stopped).download_queue =
        s.download_queue.drop (dispatch_count s stopped) ∧
      (process_download_queue s stopped).active_downloads =
        (s.download_queue.take (dispatch_count s stopped)).foldl
          (fun m j => dictInsert m j.download_id { j with started := true })
          (cleaned_active s stopped) := by
  intro s stopped
  simp [process_download_queue, startLoop_eq]

/-- C10: a dispatch pass that ends with the running set and the queue both
empty clears the loop flag, so `is_active` reports false; a subsequent
`add_download` sets it again (restarting the manager loop). -/
theorem C10_manager_stops_when_idle_and_restarts :
    (∀ (s : ManagerState) (stopped : List String),
      (process_download_queue s stopped).active_downloads = [] →
      (process_download_queue s stopped).download_queue = [] →
      is_active (process_download_queue s stopped) = false) ∧
    (∀ (s : ManagerState) (t : Nat), is_active (add_download s t).1 = true) := by
  constructor
  · intro s stopped h1 h2
    have key : (process_download_queue s stopped).is_running =
        if (process_download_queue s stopped).active_downloads.isEmpty &&
            (process_download_queue s stopped).download_queue.isEmpty then false
        else s.is_running := rfl
    simp [is_active, key, h1, h2]
  · intro s t
    rfl

/-- C10 witness: a pass over a manager whose last job has been retired stops
it; adding a download to a stopped manager reactivates it. -/
theorem C10_witness :
    is_active (process_download_queue
      { max_concurrent_downloads := 3, active_downloads := [],
        download_queue := [], completed_downloads := ["dl_1"],
        is_running := true } []) = false ∧
    is_active (add_download (init 3) 5).1 = true := by
  exact ⟨C10_manager_stops_when_idle_and_restarts.1 _ [] (by decide) (by decide),
    C10_manager_stops_when_idle_and_restarts.2 (init 3) 5⟩

/-- C9: `_perform_blocking_check` is fail-closed — whenever the rule
evaluation body raises (URL parsing, regex matching), the result is blocked
with the error recorded in the details — and `is_blocked` defers to it for
any non-empty, non-cached URL. -/
theorem C9_fail_closed :
    (∀ (rules : ContentBlocker.Rules) (env : ContentBlocker.BlockEnv)
        (url e : String),
      ContentBlocker.blocking_check_body rules env url = .error e →
      ContentBlocker.perform_blocking_check rules env url =
        ⟨true, .custom_rule, none, "Blocked due to error: " ++ e⟩) ∧
    (∀ (rules : ContentBlocker.Rules) (env : ContentBlocker.BlockEnv)
        (cache : List (String × BlockResult)) (url0 : String),
      ¬ pyLower (pyStrip url0) = "" →
      cache.lookup (pyLower (pyStrip url0)) = none →
      ContentBlocker.is_blocked rules env cache url0 =
        ContentBlocker.perform_blocking_check rules env (pyLower (pyStrip url0))) := by
  constructor
  · intro rules env url e h
    simp [ContentBlocker.perform_blocking_check, h]
  · intro rules env cache url0 h1 h2
    simp [ContentBlocker.is_blocked, h1, h2]

/-- C9 witness: a malformed IPv6 URL whose parse raises is blocked. -/
theorem C9_witness :
    (ContentBlocker.perform_blocking_check ⟨[], [], [], []⟩
        ⟨.error "Invalid IPv6 URL", fun _ _ => .ok false, fun _ _ => .ok false⟩
        "http://[::1").is_blocked = true ∧
    ContentBlocker.is_blocked ⟨[], [], [], []⟩
        ⟨.error "Invalid IPv6 URL", fun _ _ => .ok false, fun _ _ => .ok false⟩
        [] "http://[::1" =
      ContentBlocker.perform_blocking_check ⟨[], [], [], []⟩
        ⟨.error "Invalid IPv6 URL", fun _ _ => .ok false, fun _ _ => .ok false⟩
        "http://[::1" := by
  constructor
  · rw [C9_fail_closed.1 ⟨[], [], [], []⟩
      ⟨.error "Invalid IPv6 URL", fun _ _ => .ok false, fun _ _ => .ok false⟩
      "http://[::1" "Invalid IPv6 URL" rfl]
  · exact C9_fail_closed.2 ⟨[], [], [], []⟩
      ⟨.error "Invalid IPv6 URL", fun _ _ => .ok false, fun _ _ => .ok false⟩
      [] "http://[::1" (by decide) rfl

/-- `dictContains` is membership among the keys. -/
lemma dictContains_eq_false_iff (m : List (String × DThread)) (k : String) :
    dictContains m k = false ↔ ¬ k ∈ m.map (fun p => p.1) := by
  induction m with
  | nil => simp [dictContains]
  | cons p rest ih =>
    simp only [dictContains, List.any_cons, List.map_cons, List.mem_cons,
      Bool.or_eq_false_iff, not_or, decide_eq_false_iff_not] at ih ⊢
    constructor
    · intro h
      exact ⟨fun hcon => h.1 hcon.symm, ih.mp h.2⟩
    · intro h
      exact ⟨fun hcon => h.1 hcon.symm, ih.mpr h.2⟩

/-- Inserting a fresh key into a Python dict appends the pair. -/
lemma dictInsert_of_not_contains (m : List (String × DThread)) (k : String)
    (v : DThread) (h : dictContains m k = false) :
    dictInsert m k v = m ++ [(k, v)] := by
  simp [dictInsert, h]

/-- A dict insertion grows the table by at most one entry. -/
lemma dictInsert_length_le (m : List (String × DThread)) (k : String)
    (v : DThread) : (dictInsert m k v).length ≤ m.length + 1 := by
  by_cases h : dictContains m k <;> simp [dictInsert, h]

/-- The start fold of the dispatch pass grows the active table by at most
the number of jobs started. -/
lemma startFold_length : ∀ (js : List DThread) (a : List (String × DThread)),
    (js.foldl (fun m j => dictInsert m j.download_id { j with started := true })
      a).length ≤ a.length + js.length := by
  intro js
  induction js with
  | nil => intro a; simp
  | cons j rest ih =>
    intro a
    rw [List.foldl_cons]
    have h1 := ih (dictInsert a j.download_id { j with started := true })
    have h2 := dictInsert_length_le a j.download_id { j with started := true }
    simp only [List.length_cons]
    omega

/-- Starting jobs whose ids are distinct and absent from the active table
appends exactly their ids to the key list. -/
lemma startFold_keys : ∀ (js : List DThread) (a : List (String × DThread)),
    (∀ j ∈ js, dictContains a j.download_id = false) →
    (js.map (fun j => j.download_id)).Nodup →
    (js.foldl (fun m j => dictInsert m j.download_id { j with started := true })
        a).map (fun p => p.1)
      = a.map (fun p => p.1) ++ js.map (fun j => j.download_id) := by
  intro js
  induction js with
  | nil => intro a _ _; simp
  | cons j rest ih =>
    intro a hfresh hnd
    rw [List.map_cons] at hnd
    have hnd' := List.nodup_cons.mp hnd
    rw [List.foldl_cons,
      dictInsert_of_not_contains a j.download_id _ (hfresh j (by simp))]
    have hfresh' : ∀ r ∈ rest,
        dictContains (a ++ [(j.download_id, { j with started := true })])
          r.download_id = false := by
      intro r hr
      have h1 : dictContains a r.download_id = false := hfresh r (by simp [hr])
      have h2 : ¬ j.download_id = r.download_id := by
        intro hcon
        exact hnd'.1 (hcon ▸ List.mem_map_of_mem _ hr)
      simp [dictContains, List.any_eq_true] at h1 ⊢
      exact ⟨h1, h2⟩
    rw [ih _ hfresh' hnd'.2]
    simp

/-- The queue left by a dispatch pass is the suffix after the started jobs. -/
lemma process_queue_eq (s : ManagerState) (stopped : List String) :
    (process_download_queue s stopped).download_queue =
      s.download_queue.drop (dispatch_count s stopped) := by
  simp [process_download_queue, startLoop_eq]

/-- The active table left by a dispatch pass: the cleaned table with the
started jobs inserted. -/
lemma process_active_eq (s : ManagerState) (stopped : List String) :
    (process_download_queue s stopped).active_downloads =
      (s.download_queue.take (dispatch_count s stopped)).foldl
        (fun m j => dictInsert m j.download_id { j with started := true })
        (cleaned_active s stopped) := by
  simp [process_download_queue, startLoop_eq]

/-- The history left by a dispatch pass: the old history plus the ids of the
threads that stopped running. -/
lemma process_completed_eq (s : ManagerState) (stopped : List String) :
    (process_download_queue s stopped).completed_downloads =
      s.completed_downloads ++
        (s.active_downloads.filter (fun p => stopped.contains p.1)).map
          (fun p => p.1) := by
  simp [process_download_queue, startLoop_eq]

/-- A dispatch pass only moves jobs between queue, active table and history:
for a state with distinct tracked ids, the multiset of tracked ids is
unchanged. -/
lemma allIds_process_eq_multiset (s : ManagerState) (stopped : List String)
    (h : (allIds s).Nodup) :
    ((allIds (process_download_queue s stopped) : List String) : Multiset String)
      = ((allIds s : List String) : Multiset String) := by
  have hQA : ((s.download_queue.map (fun j => j.download_id) ++
      s.active_downloads.map (fun p => p.1))).Nodup :=
    h.sublist (List.sublist_append_left _ _)
  have hqnodup : (s.download_queue.map (fun j => j.download_id)).Nodup :=
    hQA.sublist (List.sublist_append_left _ _)
  have hdisj : List.Disjoint (s.download_queue.map (fun j => j.download_id))
      (s.active_downloads.map (fun p => p.1)) :=
    (List.nodup_append.mp hQA).2.2
  have hfresh : ∀ j ∈ s.download_queue.take (dispatch_count s stopped),
      dictContains (cleaned_active s stopped) j.download_id = false := by
    intro j hj
    apply (dictContains_eq_false_iff _ _).mpr
    intro hmem
    have hkeysub : List.Sublist
        ((cleaned_active s stopped).map (fun p => p.1))
        (s.active_downloads.map (fun p => p.1)) :=
      (List.filter_sublist _).map _
    have hqmem : j.download_id ∈
        s.download_queue.map (fun j => j.download_id) :=
      List.mem_map_of_mem _ (List.take_subset _ _ hj)
    exact hdisj hqmem (hkeysub.subset hmem)
  have htaknd :
      ((s.download_queue.take (dispatch_count s stopped)).map
        (fun j => j.download_id)).Nodup := by
    rw [List.map_take]
    exact hqnodup.sublist (List.take_sublist _ _)
  have hkeys : (process_download_queue s stopped).active_downloads.map
      (fun p => p.1) =
      (cleaned_active s stopped).map (fun p => p.1) ++
        (s.download_queue.take (dispatch_count s stopped)).map
          (fun j => j.download_id) := by
    rw [process_active_eq]
    exact startFold_keys _ _ hfresh htaknd
  have hsplitq :
      ((s.download_queue.map (fun j => j.download_id) : List String) :
        Multiset String) =
      (((s.download_queue.take (dispatch_count s stopped)).map
          (fun j => j.download_id) : List String) : Multiset String) +
        (((s.download_queue.drop (dispatch_count s stopped)).map
          (fun j => j.download_id) : List String) : Multiset String) := by
    conv_lhs => rw [← List.take_append_drop (dispatch_count s stopped)
      s.download_queue]
    simp
  have hactsplit :
      ((s.active_downloads.map (fun p => p.1) : List String) : Multiset String)
        = (((s.active_downloads.filter (fun p => stopped.contains p.1)).map
              (fun p => p.1) : List String) : Multiset String) +
          (((cleaned_active s stopped).map (fun p => p.1) :
            List String) : Multiset String) := by
    have hp := List.filter_append_perm
      (fun p : String × DThread => stopped.contains p.1) s.active_downloads
    have hm := Multiset.coe_eq_coe.mpr (hp.map (fun p => p.1))
    rw [List.map_append] at hm
    rw [← hm]
    simp [cleaned_active]
  simp only [allIds, process_queue_eq, process_completed_eq, hkeys]
  simp only [← Multiset.coe_add]
  rw [hsplitq, hactsplit]
  abel

/-- One manager operation keeps tracked ids distinct, and introduces no id
except the one of a submitted job. -/
lemma step_allIds (s : ManagerState) (op : MOp)
    (h : (allIds s).Nodup)
    (hf : ∀ t, op = MOp.add t → ¬ mkDownloadId t ∈ allIds s) :
    (allIds (step s op)).Nodup ∧
      ∀ x ∈ allIds (step s op), x ∈ allIds s ∨
        ∃ t, op = MOp.add t ∧ x = mkDownloadId t := by
  cases op with
  | add t =>
    have hft := hf t rfl
    have hms : ((allIds (step s (MOp.add t)) : List String) : Multiset String) =
        ((mkDownloadId t :: allIds s : List String) : Multiset String) := by
      simp only [step, add_download, allIds, List.map_append, List.map_cons,
        List.map_nil]
      simp only [← Multiset.cons_coe, ← Multiset.coe_add,
        Multiset.coe_singleton, ← Multiset.singleton_add]
      abel
    have hperm := Multiset.coe_eq_coe.mp hms
    refine ⟨hperm.nodup_iff.mpr (List.nodup_cons.mpr ⟨hft, h⟩), ?_⟩
    intro x hx
    rcases List.mem_cons.mp (hperm.subset hx) with hx' | hx'
    · exact Or.inr ⟨t, rfl, hx'⟩
    · exact Or.inl hx'
  | remove id =>
    have hs : step s (MOp.remove id) = s := rfl
    rw [hs]
    exact ⟨h, fun x hx => Or.inl hx⟩
  | dispatch stopped =>
    have hperm := Multiset.coe_eq_coe.mp (allIds_process_eq_multiset s stopped h)
    exact ⟨hperm.nodup_iff.mpr h, fun x hx => Or.inl (hperm.subset hx)⟩
  | setMax n =>
    have : allIds (step s (MOp.setMax n)) = allIds s := by
      by_cases h0 : 0 < n <;> simp [step, set_max_concurrent_downloads, allIds, h0]
    rw [this]
    exact ⟨h, fun x hx => Or.inl hx⟩
  | cancelAll =>
    by_cases he : s.active_downloads.isEmpty
    · have hsub : List.Sublist (allIds (step s MOp.cancelAll)) (allIds s) := by
        have heq : allIds (step s MOp.cancelAll) =
            [] ++ s.active_downloads.map (fun p => p.1) ++
              s.completed_downloads := by
          simp [step, cancel_all, he, allIds]
        rw [heq]
        exact ((List.nil_sublist _).append (List.Sublist.refl _)).append
          (List.Sublist.refl _)
      exact ⟨h.sublist hsub, fun x hx => Or.inl (hsub.subset hx)⟩
    · have hs : step s MOp.cancelAll = s := by
        simp [step, cancel_all, he]
      rw [hs]
      exact ⟨h, fun x hx => Or.inl hx⟩
  | clearCompleted =>
    have hs : step s MOp.clearCompleted = s := rfl
    rw [hs]
    exact ⟨h, fun x hx => Or.inl hx⟩

/-- Along any trace whose submissions produce ids outside the already-used
pool, the tracked ids stay distinct. -/
lemma reach_allIds_nodup :
    ∀ (ops : List MOp) (s : ManagerState) (used : List String),
      (allIds s).Nodup →
      (∀ x ∈ allIds s, x ∈ used) →
      (used ++ (addTimes ops).map mkDownloadId).Nodup →
      (allIds (ops.foldl step s)).Nodup := by
  intro ops
  induction ops with
  | nil =>
    intro s used h _ _
    simpa using h
  | cons op rest ih =>
    intro s used h hsub hnd
    rw [List.foldl_cons]
    cases op with
    | add t =>
      have hmem : mkDownloadId t ∈
          (addTimes (MOp.add t :: rest)).map mkDownloadId := by
        simp [addTimes]
      have hfresh : ¬ mkDownloadId t ∈ allIds s := by
        intro hcon
        exact (List.nodup_append.mp hnd).2.2 (hsub _ hcon) hmem
      have hstep := step_allIds s (MOp.add t) h (by intro t' ht'; cases ht'; exact hfresh)
      apply ih (step s (MOp.add t)) (used ++ [mkDownloadId t]) hstep.1
      · intro x hx
        rcases hstep.2 x hx with hx' | ⟨t', ht', hxid⟩
        · exact List.mem_append_left _ (hsub x hx')
        · cases ht'
          rw [hxid]
          exact List.mem_append_right _ (by simp)
      · have heq : (used ++ [mkDownloadId t]) ++
            (addTimes rest).map mkDownloadId =
            used ++ (addTimes (MOp.add t :: rest)).map mkDownloadId := by
          simp [addTimes]
        rw [heq]
        exact hnd
    | remove id =>
      have hstep := step_allIds s (MOp.remove id) h (by intro t' ht'; cases ht')
      refine ih _ used hstep.1 ?_ (by simpa [addTimes] using hnd)
      intro x hx
      rcases hstep.2 x hx with hx' | ⟨t', ht', _⟩
      · exact hsub x hx'
      · cases ht'
    | dispatch stopped =>
      have hstep := step_allIds s (MOp.dispatch stopped) h (by intro t' ht'; cases ht')
      refine ih _ used hstep.1 ?_ (by simpa [addTimes] using hnd)
      intro x hx
      rcases hstep.2 x hx with hx' | ⟨t', ht', _⟩
      · exact hsub x hx'
      · cases ht'
    | setMax n =>
      have hstep := step_allIds s (MOp.setMax n) h (by intro t' ht'; cases ht')
      refine ih _ used hstep.1 ?_ (by simpa [addTimes] using hnd)
      intro x hx
      rcases hstep.2 x hx with hx' | ⟨t', ht', _⟩
      · exact hsub x hx'
      · cases ht'
    | cancelAll =>
      have hstep := step_allIds s MOp.cancelAll h (by intro t' ht'; cases ht')
      refine ih _ used hstep.1 ?_ (by simpa [addTimes] using hnd)
      intro x hx
      rcases hstep.2 x hx with hx' | ⟨t', ht', _⟩
      · exact hsub x hx'
      · cases ht'
    | clearCompleted =>
      have hstep := step_allIds s MOp.clearCompleted h (by intro t' ht'; cases ht')
      refine ih _ used hstep.1 ?_ (by simpa [addTimes] using hnd)
      intro x hx
      rcases hstep.2 x hx with hx' | ⟨t', ht', _⟩
      · exact hsub x hx'
      · cases ht'

/-- One dispatch pass never pushes the active table beyond the larger of its
previous size and the concurrency bound. -/
lemma process_length_le (s : ManagerState) (stopped : List String) :
    ((process_download_queue s stopped).active_downloads.length : Int) ≤
      max (s.active_downloads.length : Int) s.max_concurrent_downloads := by
  have hA := process_active_eq s stopped
  have hlen1 : (cleaned_active s stopped).length ≤ s.active_downloads.length :=
    List.length_filter_le _ _
  have hfold := startFold_length
    (s.download_queue.take (dispatch_count s stopped))
    (cleaned_active s stopped)
  rw [← hA] at hfold
  have htake : (s.download_queue.take (dispatch_count s stopped)).length ≤
      dispatch_count s stopped := by
    simp [List.length_take]
  have hdc : (dispatch_count s stopped : Nat) =
      (min (s.max_concurrent_downloads -
          ((cleaned_active s stopped).length : Int))
        (s.download_queue.length : Int)).toNat := rfl
  omega

/-- Along any trace that never changes the concurrency bound, the bound is
preserved and the active table never exceeds it. -/
lemma reach_bound :
    ∀ (ops : List MOp) (s : ManagerState) (k : Int),
      noSetMax ops = true →
      s.max_concurrent_downloads = k →
      ((s.active_downloads.length : Int) ≤ k) →
      (ops.foldl step s).max_concurrent_downloads = k ∧
        (((ops.foldl step s).active_downloads.length : Int) ≤ k) := by
  intro ops
  induction ops with
  | nil =>
    intro s k _ h1 h2
    exact ⟨h1, h2⟩
  | cons op rest ih =>
    intro s k hns h1 h2
    rw [List.foldl_cons]
    cases op with
    | setMax n => simp [noSetMax] at hns
    | add t =>
      exact ih _ k (by simpa [noSetMax] using hns)
        (by simpa [step, add_download] using h1)
        (by simpa [step, add_download] using h2)
    | remove id =>
      rw [show step s (MOp.remove id) = s from rfl]
      exact ih _ k (by simpa [noSetMax] using hns) h1 h2
    | dispatch stopped =>
      have hb := process_length_le s stopped
      have hmax : (process_download_queue s stopped).max_concurrent_downloads =
          s.max_concurrent_downloads := by
        simp [process_download_queue]
      refine ih _ k (by simpa [noSetMax] using hns) (by rw [step, hmax, h1]) ?_
      rw [step]
      rw [h1] at hb
      omega
    | cancelAll =>
      by_cases he : s.active_downloads.isEmpty
      · rw [show step s MOp.cancelAll = { s with download_queue := [] } from
          by simp [step, cancel_all, he]]
        exact ih _ k (by simpa [noSetMax] using hns) h1 h2
      · rw [show step s MOp.cancelAll = s from by simp [step, cancel_all, he]]
        exact ih _ k (by simpa [noSetMax] using hns) h1 h2
    | clearCompleted =>
      rw [show step s MOp.clearCompleted = s from rfl]
      exact ih _ k (by simpa [noSetMax] using hns) h1 h2

/-- C3 amended: one dispatch pass starts at most
`max 0 (maxConcurrent − |running after clean-up|)` jobs, so it never pushes
the running set beyond `max |running before| maxConcurrent`; along any trace
that never changes the bound at runtime, `|running| ≤ maxConcurrent` holds
in every reachable state (lowering the bound below the running count
violates it, as the counterexample shows, because running jobs are not
preempted); and along any trace whose submission seconds give distinct ids,
every tracked id is in at most one of queue, running set and history. -/
theorem C3_bound_and_partition :
    (∀ (s : ManagerState) (stopped : List String),
      ((process_download_queue s stopped).active_downloads.length : Int) ≤
        max (s.active_downloads.length : Int) s.max_concurrent_downloads) ∧
    (∀ (k : Int) (ops : List MOp), 0 < k → noSetMax ops = true →
      ((reach k ops).active_downloads.length : Int) ≤
        (reach k ops).max_concurrent_downloads) ∧
    (∀ (k : Int) (ops : List MOp),
      ((addTimes ops).map mkDownloadId).Nodup →
      (allIds (reach k ops)).Nodup) := by
  refine ⟨process_length_le, ?_, ?_⟩
  · intro k ops hk hns
    have hr := reach_bound ops (init k) k hns rfl (by simp [init]; omega)
    rw [reach, hr.1]
    exact hr.2
  · intro k ops hnd
    exact reach_allIds_nodup ops (init k) [] (by simp [allIds, init])
      (by simp [allIds, init]) (by simpa using hnd)

/-- C3 witness: the amended statement on a saturated two-slot manager. -/
theorem C3_witness :
    ((reach 2 [.add 1, .add 2, .dispatch []]).active_downloads.length : Int) ≤
      (reach 2 [.add 1, .add 2, .dispatch []]).max_concurrent_downloads ∧
    (allIds (reach 2 [.add 1, .add 2, .dispatch []])).Nodup := by
  exact ⟨C3_bound_and_partition.2.1 2 [.add 1, .add 2, .dispatch []]
      (by decide) (by decide),
    C3_bound_and_partition.2.2 2 [.add 1, .add 2, .dispatch []] (by decide)⟩

/-- C8: `remove_download` opens with `with QMutex(self._mutex)`, which under
PyQt6 raises `TypeError` on every call before any check or mutation, so the
method never returns the claimed bool, never removes a queued job and never
forwards a cancel (`DownloadThread.cancel` raises the same way).  The dead
body under the `with` is what the claim describes: on the queued third job
of a saturated manager it would return true and erase exactly that job, an
unknown id would return false, and even it raises on an active id because
the forwarded `cancel()` opens with the same broken statement. -/
theorem C8_remove_download_always_raises :
    (∀ (s : ManagerState) (id : String),
      remove_download s id = .error qmutex_typeerror) ∧
    remove_download_body (reach 2 [.add 1, .add 2, .add 3, .dispatch []])
        "dl_3" =
      .ok (true, { reach 2 [.add 1, .add 2, .add 3, .dispatch []] with
        download_queue := [] }) ∧
    remove_download_body (reach 2 [.add 1, .add 2, .add 3, .dispatch []])
        "dl_9" =
      .ok (false, reach 2 [.add 1, .add 2, .add 3, .dispatch []]) ∧
    remove_download_body (reach 2 [.add 1, .add 2, .add 3, .dispatch []])
        "dl_1" =
      .error qmutex_typeerror := by
  exact ⟨fun s id => rfl, rfl, rfl, rfl⟩

end Claims

end DlpGui
